import Mathlib

/-
Verification of the heart-disease dashboard (src/app.py).

The dashboard's logic is embedded shallowly:
- numeric values are modelled as exact rationals (ℚ); the Python source
  uses literal decimals everywhere, so the exact-decimal semantics is the
  intended reading of the formulas;
- the risk scorer (tab 2, lines 119-134) becomes pure functions `risque`,
  `proba`, `affiche`, bundled as `predire`;
- the data loader (tab 1, lines 56-73) becomes `load`, explicit over the
  outcomes of the upload parse and the remote fetch;
- the static results table (tab 3, lines 156-161) and the export blobs
  (tab 4, lines 188-202) become `results_df`, `to_csv`, `json_data`.
-/

/-- The three entries of the model selectbox (app.py line 27). -/
inductive ModelChoice where
  | XGBoost
  | RandomForest
  | Logistic
deriving DecidableEq, Repr

/-- Base scores of `scores_modeles` (app.py lines 99-103). -/
def scores_modeles : ModelChoice → ℚ
  | .XGBoost => 89/100
  | .RandomForest => 87/100
  | .Logistic => 84/100

/-- The risk value computed at app.py lines 119-124. -/
def risque (age chol thalach : ℚ) : ℚ :=
  4/10 + (age - 50) / 200 + (chol - 250) / 1500 - (thalach - 150) / 400

/-- The clamped probability computed at app.py line 127. -/
def proba (age chol thalach : ℚ) (m : ModelChoice) : ℚ :=
  min (95/100) (max (5/100) (scores_modeles m + (risque age chol thalach - 4/10) / 2))

/-- The label displayed at app.py line 134. -/
def affiche (age chol thalach : ℚ) (m : ModelChoice) : String :=
  if proba age chol thalach m ≥ 6/10 then "🫀 MALADIE" else "✅ SAIN"

/-- The full tab-2 scorer: it receives all four form inputs, `cp` included
(app.py line 114), and returns the probability and the displayed label. -/
def predire (age chol thalach : ℚ) (cp : ℕ) (m : ModelChoice) : ℚ × String :=
  (proba age chol thalach m, affiche age chol thalach m)

/-- Clamp of the spec (section 4.2): `clamp(x, lower, upper)`. -/
def clamp (lo hi x : ℚ) : ℚ := min hi (max lo x)

/-- Spec-side risk formula, written from the spec text of section 4.2. -/
def spec_risk (age chol thalach : ℚ) : ℚ :=
  4/10 + (age - 50) / 200 + (chol - 250) / 1500 - (thalach - 150) / 400

/-- Spec-side base score of a model (section 4.2: 0.89 | 0.87 | 0.84). -/
def spec_base : ModelChoice → ℚ
  | .XGBoost => 89/100
  | .RandomForest => 87/100
  | .Logistic => 84/100

/-- Spec-side probability, written from the spec text of section 4.2. -/
def spec_proba (age chol thalach : ℚ) (m : ModelChoice) : ℚ :=
  clamp (5/100) (95/100) (spec_base m + (spec_risk age chol thalach - 4/10) / 2)

/-- Spec-side label, written from the spec text of section 4.2. -/
def spec_label (age chol thalach : ℚ) (m : ModelChoice) : String :=
  if spec_proba age chol thalach m ≥ 6/10 then "disease" else "healthy"

/-- A tabular dataset: a header of column names and rows of numeric cells,
mirroring the DataFrames handled in tab 1. -/
structure Table where
  header : List String
  rows : List (List ℚ)
deriving DecidableEq, Repr

/-- The fixed 14-name header assigned at app.py lines 62-65. -/
def fixed_header : List String :=
  ["age", "sex", "cp", "trestbps", "chol", "fbs", "restecg",
   "thalach", "exang", "oldpeak", "slope", "ca", "thal", "target"]

/-- The literal 3-row fallback DataFrame of app.py lines 68-73. -/
def fallback_df : Table :=
  { header := ["age", "chol", "thalach", "target"]
    rows := [[45, 210, 150, 0], [55, 260, 140, 1], [65, 320, 120, 1]] }

/-- The header assignment `df.columns = [...]` of app.py line 62: pandas
raises if the list length disagrees with the number of columns, and
otherwise replaces the header, leaving the cell data unchanged. -/
def set_columns (t : Table) (names : List String) : Except Unit Table :=
  if t.header.length = names.length then
    .ok { header := names, rows := t.rows }
  else
    .error ()

/-- The tab-1 data loading of app.py lines 56-73, explicit over the
outcomes of its two fallible steps: `uploaded` is `none` when no file was
uploaded and otherwise carries the result of parsing it, and `remote` is
the result of fetching and parsing the default URL.  Any exception lands
in the `except` branch, which emits the warning banner and substitutes
`fallback_df`.  Returns the dataset together with whether the warning was
emitted. -/
def load (uploaded : Option (Except Unit Table)) (remote : Except Unit Table) :
    Table × Bool :=
  match uploaded with
  | some (.ok t) => (t, false)
  | some (.error _) => (fallback_df, true)
  | none =>
    match remote with
    | .error _ => (fallback_df, true)
    | .ok t =>
      match set_columns t fixed_header with
      | .ok t2 => (t2, false)
      | .error _ => (fallback_df, true)

/-- One row of the static results table of app.py lines 156-161. -/
structure ResultRow where
  modele : String
  accuracy : ℚ
  f1 : ℚ
  roc : ℚ
deriving DecidableEq, Repr

/-- The static `results_df` of app.py lines 156-161; the decimal literals
89.4, 87.9, ... are modelled as the exact rationals they denote. -/
def results_df : List ResultRow :=
  [⟨"XGBoost", mkRat 894 10, mkRat 894 10, mkRat 956 10⟩,
   ⟨"RandomForest", mkRat 879 10, mkRat 878 10, mkRat 945 10⟩,
   ⟨"Logistic", mkRat 848 10, mkRat 846 10, mkRat 912 10⟩]

/-- The CSV header line produced by `results_df.to_csv(index=False)`. -/
def results_header : String := "Modèle,Accuracy (%),F1-Score (%),ROC-AUC (%)"

/-- Renders a nonnegative rational that is a whole number of tenths the way
pandas renders the corresponding float (one digit after the decimal point);
every value of `results_df` is of this shape. -/
def fmtTenths (q : ℚ) : String :=
  let n := q.num.toNat * (10 / q.den)
  toString (n / 10) ++ "." ++ toString (n % 10)

/-- One data line of the exported CSV. -/
def rowToCsv (r : ResultRow) : String :=
  r.modele ++ "," ++ fmtTenths r.accuracy ++ "," ++ fmtTenths r.f1
    ++ "," ++ fmtTenths r.roc

/-- The CSV text produced at app.py line 188 by
`results_df.to_csv(index=False)`: the header line then one line per row,
each line terminated by a newline. -/
def to_csv : String :=
  results_header ++ "\n"
    ++ String.join (results_df.map (fun r => rowToCsv r ++ "\n"))

/-- Splits a character list at every occurrence of the separator `c`. -/
def splitOnChar (c : Char) : List Char → List (List Char)
  | [] => [[]]
  | x :: xs =>
    if x = c then
      [] :: splitOnChar c xs
    else
      match splitOnChar c xs with
      | [] => [[x]]
      | y :: ys => (x :: y) :: ys

/-- Splits a string at every occurrence of the separator character. -/
def splitStr (c : Char) (s : String) : List String :=
  (splitOnChar c s.data).map String.mk

/-- Reads a decimal digit. -/
def charDigit (c : Char) : Option Nat :=
  if c.isDigit then some (c.toNat - 48) else none

/-- Reads a digit string left to right into an accumulator. -/
def natOfDigitsAux : List Char → Nat → Option Nat
  | [], acc => some acc
  | c :: cs, acc =>
    match charDigit c with
    | some d => natOfDigitsAux cs (acc * 10 + d)
    | none => none

/-- Reads a nonempty digit string as a natural number. -/
def natOfDigits (l : List Char) : Option Nat :=
  match l with
  | [] => none
  | _ => natOfDigitsAux l 0

/-- Parses a decimal numeral such as "89.4" back to the exact rational it
denotes, the way the CSV reader turns the cell back into a number. -/
def parseDec (s : String) : Option ℚ :=
  match splitStr (Char.ofNat 46) s with
  | [a, b] =>
    match natOfDigits a.data, natOfDigits b.data with
    | some x, some y => some (mkRat (x * 10 ^ b.length + y) (10 ^ b.length))
    | _, _ => none
  | _ => none

/-- Parses one data line of the results CSV. -/
def parseRow (s : String) : Option ResultRow :=
  match splitStr (Char.ofNat 44) s with
  | [m, a, f, r] => do
    let a ← parseDec a
    let f ← parseDec f
    let r ← parseDec r
    pure ⟨m, a, f, r⟩
  | _ => none

/-- Parses a results CSV text back into its header line and data rows,
ignoring empty lines (the exported text ends with a newline). -/
def parse_csv (s : String) : Option (String × List ResultRow) :=
  match (splitStr (Char.ofNat 10) s).filter (fun l => l ≠ "") with
  | [] => none
  | hdr :: rest => (rest.mapM parseRow).map (fun rows => (hdr, rows))

/-- The fixed dictionary exported as JSON at app.py lines 191-195. -/
structure JsonData where
  meilleur_modele : String
  f1_score_max : ℚ
  features_importantes : List String
deriving DecidableEq, Repr

/-- The `json_data` literal of app.py lines 191-195.  It is a closed
constant: it reads neither the loaded dataset nor any scorer input. -/
def json_data : JsonData :=
  { meilleur_modele := "XGBoost"
    f1_score_max := 894/10
    features_importantes := ["thalach", "oldpeak", "cp"] }

/-- The displayed label agrees with the spec-side label: the code shows the
disease banner exactly when the spec says "disease", and the healthy banner
exactly when the spec says "healthy". -/
lemma affiche_spec_label (age chol thalach : ℚ) (m : ModelChoice) :
    (affiche age chol thalach m = "🫀 MALADIE"
        ↔ spec_label age chol thalach m = "disease")
      ∧ (affiche age chol thalach m = "✅ SAIN"
        ↔ spec_label age chol thalach m = "healthy") := by
  have hpq : proba age chol thalach m = spec_proba age chol thalach m := by
    cases m <;> rfl
  unfold affiche spec_label
  rw [hpq]
  by_cases h : spec_proba age chol thalach m ≥ 6/10
  · rw [if_pos h, if_pos h]; exact ⟨by simp, by simp⟩
  · rw [if_neg h, if_neg h]; exact ⟨by simp, by simp⟩

/-- C1: over the documented input domain, the tab-2 scorer computes the
risk by the spec formula of section 4.2, the probability as
clamp(base + (risk - 0.4)/2, 0.05, 0.95) with base 0.89 / 0.87 / 0.84 for
XGBoost / RandomForest / Logistic, and it shows the disease label exactly
when the spec label is "disease" and the healthy label exactly when the
spec label is "healthy". -/
theorem C1_scorer_matches_spec (age chol thalach : ℚ) (cp : ℕ) (m : ModelChoice)
    (hage : 20 ≤ age ∧ age ≤ 80) (hchol : 100 ≤ chol ∧ chol ≤ 600)
    (hthalach : 70 ≤ thalach ∧ thalach ≤ 220)
    (hcp : cp ∈ ([1, 2, 3, 4] : List ℕ)) :
    risque age chol thalach
        = 4/10 + (age - 50) / 200 + (chol - 250) / 1500 - (thalach - 150) / 400
      ∧ spec_base ModelChoice.XGBoost = 89/100
      ∧ spec_base ModelChoice.RandomForest = 87/100
      ∧ spec_base ModelChoice.Logistic = 84/100
      ∧ (predire age chol thalach cp m).1 = spec_proba age chol thalach m
      ∧ ((predire age chol thalach cp m).2 = "🫀 MALADIE"
            ↔ spec_label age chol thalach m = "disease")
      ∧ ((predire age chol thalach cp m).2 = "✅ SAIN"
            ↔ spec_label age chol thalach m = "healthy") := by
  refine ⟨rfl, rfl, rfl, rfl, ?_, ?_, ?_⟩
  · cases m <;> rfl
  · exact (affiche_spec_label age chol thalach m).1
  · exact (affiche_spec_label age chol thalach m).2

/-- Witness for C1 at age 50, chol 250, thalach 150, cp 1, model XGBoost. -/
theorem C1_scorer_matches_spec_witness :
    (((20 : ℚ) ≤ 50 ∧ (50 : ℚ) ≤ 80) ∧ ((100 : ℚ) ≤ 250 ∧ (250 : ℚ) ≤ 600)
        ∧ ((70 : ℚ) ≤ 150 ∧ (150 : ℚ) ≤ 220) ∧ 1 ∈ ([1, 2, 3, 4] : List ℕ))
      ∧ (predire 50 250 150 1 ModelChoice.XGBoost).1
          = spec_proba 50 250 150 ModelChoice.XGBoost :=
  ⟨⟨⟨by norm_num, by norm_num⟩, ⟨by norm_num, by norm_num⟩,
    ⟨by norm_num, by norm_num⟩, by decide⟩,
   (C1_scorer_matches_spec 50 250 150 1 ModelChoice.XGBoost
      ⟨by norm_num, by norm_num⟩ ⟨by norm_num, by norm_num⟩
      ⟨by norm_num, by norm_num⟩ (by decide)).2.2.2.2.1⟩

/-- C2: over the documented input domain and for every model choice, the
probability is clamped into the closed interval from 0.05 to 0.95. -/
theorem C2_proba_in_bounds (age chol thalach : ℚ) (m : ModelChoice)
    (hage : 20 ≤ age ∧ age ≤ 80) (hchol : 100 ≤ chol ∧ chol ≤ 600)
    (hthalach : 70 ≤ thalach ∧ thalach ≤ 220) :
    5/100 ≤ proba age chol thalach m ∧ proba age chol thalach m ≤ 95/100 := by
  constructor
  · exact le_min (by norm_num) (le_max_left _ _)
  · exact min_le_left _ _

/-- Witness for C2 at age 20, chol 600, thalach 70, model Logistic. -/
theorem C2_proba_in_bounds_witness :
    (((20 : ℚ) ≤ 20 ∧ (20 : ℚ) ≤ 80) ∧ ((100 : ℚ) ≤ 600 ∧ (600 : ℚ) ≤ 600)
        ∧ ((70 : ℚ) ≤ 70 ∧ (70 : ℚ) ≤ 220))
      ∧ 5/100 ≤ proba 20 600 70 ModelChoice.Logistic
      ∧ proba 20 600 70 ModelChoice.Logistic ≤ 95/100 :=
  ⟨⟨⟨by norm_num, by norm_num⟩, ⟨by norm_num, by norm_num⟩,
    ⟨by norm_num, by norm_num⟩⟩,
   C2_proba_in_bounds 20 600 70 ModelChoice.Logistic
     ⟨by norm_num, by norm_num⟩ ⟨by norm_num, by norm_num⟩
     ⟨by norm_num, by norm_num⟩⟩

/-- C3: over the documented input domain the probability is at least
0.6275, hence at least 0.6, so the scorer always shows the disease label
and the healthy branch is unreachable. -/
theorem C3_always_disease (age chol thalach : ℚ) (cp : ℕ) (m : ModelChoice)
    (hage : 20 ≤ age ∧ age ≤ 80) (hchol : 100 ≤ chol ∧ chol ≤ 600)
    (hthalach : 70 ≤ thalach ∧ thalach ≤ 220)
    (hcp : cp ∈ ([1, 2, 3, 4] : List ℕ)) :
    6275/10000 ≤ (predire age chol thalach cp m).1
      ∧ 6/10 ≤ (predire age chol thalach cp m).1
      ∧ (predire age chol thalach cp m).2 = "🫀 MALADIE" := by
  have hbase : 84/100 ≤ scores_modeles m := by
    cases m <;> norm_num [scores_modeles]
  have hrisk : -(25/1000) ≤ risque age chol thalach := by
    unfold risque
    rcases hage with ⟨h1, _⟩
    rcases hchol with ⟨h3, _⟩
    rcases hthalach with ⟨_, h6⟩
    linarith
  have hu : 6275/10000
      ≤ scores_modeles m + (risque age chol thalach - 4/10) / 2 := by
    linarith
  have hp : 6275/10000 ≤ proba age chol thalach m := by
    unfold proba
    exact le_min (by norm_num) (le_trans hu (le_max_right _ _))
  have hp6 : proba age chol thalach m ≥ 6/10 := le_trans (by norm_num) hp
  refine ⟨hp, hp6, ?_⟩
  show affiche age chol thalach m = _
  unfold affiche
  rw [if_pos hp6]

/-- Witness for C3 at age 20, chol 100, thalach 220, cp 1, Logistic: the
minimising corner of the domain. -/
theorem C3_always_disease_witness :
    (((20 : ℚ) ≤ 20 ∧ (20 : ℚ) ≤ 80) ∧ ((100 : ℚ) ≤ 100 ∧ (100 : ℚ) ≤ 600)
        ∧ ((70 : ℚ) ≤ 220 ∧ (220 : ℚ) ≤ 220) ∧ 1 ∈ ([1, 2, 3, 4] : List ℕ))
      ∧ (predire 20 100 220 1 ModelChoice.Logistic).2 = "🫀 MALADIE" :=
  ⟨⟨⟨by norm_num, by norm_num⟩, ⟨by norm_num, by norm_num⟩,
    ⟨by norm_num, by norm_num⟩, by decide⟩,
   (C3_always_disease 20 100 220 1 ModelChoice.Logistic
      ⟨by norm_num, by norm_num⟩ ⟨by norm_num, by norm_num⟩
      ⟨by norm_num, by norm_num⟩ (by decide)).2.2⟩

/-- C6: the scorer's result does not depend on the chest-pain input cp:
two runs agreeing on age, chol, thalach and model return the same
probability and the same label whatever their cp values are. -/
theorem C6_cp_has_no_influence (age chol thalach : ℚ) (cp₁ cp₂ : ℕ)
    (m : ModelChoice) :
    predire age chol thalach cp₁ m = predire age chol thalach cp₂ m := rfl

/-- C7: at age 80, chol 600, thalach 70, cp 4, model RandomForest, the
risk is 59/60 (≈ 0.9833), the unclamped value 0.87 + (risk - 0.4)/2
exceeds 0.95, the returned probability is exactly 0.95 (upper clamp
active), and the disease label is shown. -/
theorem C7_upper_clamp_case :
    risque 80 600 70 = 59/60
      ∧ 95/100
          < scores_modeles ModelChoice.RandomForest + (risque 80 600 70 - 4/10) / 2
      ∧ predire 80 600 70 4 ModelChoice.RandomForest = (95/100, "🫀 MALADIE") := by
  have hp : proba 80 600 70 ModelChoice.RandomForest = 95/100 := by
    norm_num [proba, risque, scores_modeles]
  have hl : affiche 80 600 70 ModelChoice.RandomForest = "🫀 MALADIE" := by
    unfold affiche
    rw [hp, if_pos (by norm_num)]
  refine ⟨by norm_num [risque], by norm_num [risque, scores_modeles], ?_⟩
  show (proba 80 600 70 _, affiche 80 600 70 _) = _
  rw [hp, hl]

/-- C8: at age 50, chol 250, thalach 150, model XGBoost, for any cp, the
risk is exactly 0.4, the probability exactly 0.89, and the disease label
is shown. -/
theorem C8_neutral_point (cp : ℕ) :
    risque 50 250 150 = 4/10
      ∧ predire 50 250 150 cp ModelChoice.XGBoost = (89/100, "🫀 MALADIE") := by
  have hp : proba 50 250 150 ModelChoice.XGBoost = 89/100 := by
    norm_num [proba, risque, scores_modeles]
  have hl : affiche 50 250 150 ModelChoice.XGBoost = "🫀 MALADIE" := by
    unfold affiche
    rw [hp, if_pos (by norm_num)]
  refine ⟨by norm_num [risque], ?_⟩
  show (proba 50 250 150 _, affiche 50 250 150 _) = _
  rw [hp, hl]

/-- C4: whenever loading raises on either path — the upload fails to
parse, the remote fetch fails, or the fetched table cannot take the
14-name header — the loader returns exactly the literal 3-row fallback
dataset and emits the warning. -/
theorem C4_exception_gives_fallback :
    (∀ r : Except Unit Table, load (some (Except.error ())) r = (fallback_df, true))
      ∧ load none (Except.error ()) = (fallback_df, true)
      ∧ (∀ t : Table, t.header.length ≠ 14 →
            load none (Except.ok t) = (fallback_df, true))
      ∧ fallback_df
          = { header := ["age", "chol", "thalach", "target"]
              rows := [[45, 210, 150, 0], [55, 260, 140, 1], [65, 320, 120, 1]] } := by
  refine ⟨fun _ => rfl, rfl, ?_, rfl⟩
  intro t h
  simp [load, set_columns, fixed_header, h]

/-- Witness for C4: the remote table with the fallback's 4-column shape
cannot take the 14-name header, so the loader falls back with a warning. -/
theorem C4_exception_gives_fallback_witness :
    fallback_df.header.length ≠ 14
      ∧ load none (Except.ok fallback_df) = (fallback_df, true) :=
  ⟨by decide, C4_exception_gives_fallback.2.2.1 fallback_df (by decide)⟩

/-- C5: when nothing is uploaded and the remote fetch yields a 14-column
table, the loader overwrites its header with the fixed 14 names in their
fixed order — whatever the fetched header was — and keeps every cell
unchanged, without warning. -/
theorem C5_remote_header_overwritten (t : Table) (h : t.header.length = 14) :
    load none (Except.ok t) = ({ header := fixed_header, rows := t.rows }, false) := by
  simp [load, set_columns, fixed_header, h]

/-- Witness for C5: a remote table whose header names are all wrong still
comes back with the fixed 14 names and its cells intact. -/
theorem C5_remote_header_overwritten_witness :
    (Table.mk ["c01", "c02", "c03", "c04", "c05", "c06", "c07",
               "c08", "c09", "c10", "c11", "c12", "c13", "c14"]
        [[63, 1, 3, 145, 233, 1, 0, 150, 0, 2, 0, 0, 1, 1]]).header.length = 14
      ∧ load none (Except.ok (Table.mk
          ["c01", "c02", "c03", "c04", "c05", "c06", "c07",
           "c08", "c09", "c10", "c11", "c12", "c13", "c14"]
          [[63, 1, 3, 145, 233, 1, 0, 150, 0, 2, 0, 0, 1, 1]]))
        = ({ header := fixed_header
             rows := [[63, 1, 3, 145, 233, 1, 0, 150, 0, 2, 0, 0, 1, 1]] }, false) :=
  ⟨by decide,
   C5_remote_header_overwritten
     (Table.mk ["c01", "c02", "c03", "c04", "c05", "c06", "c07",
                "c08", "c09", "c10", "c11", "c12", "c13", "c14"]
        [[63, 1, 3, 145, 233, 1, 0, 150, 0, 2, 0, 0, 1, 1]]) (by decide)⟩

/-- C9: the exported CSV text is exactly the header line followed by the
three fixed rows, and parsing it back recovers the in-memory header and
results table (round-trip). -/
theorem C9_csv_roundtrip :
    to_csv =
        "Modèle,Accuracy (%),F1-Score (%),ROC-AUC (%)\nXGBoost,89.4,89.4,95.6\nRandomForest,87.9,87.8,94.5\nLogistic,84.8,84.6,91.2\n"
      ∧ parse_csv to_csv = some (results_header, results_df) :=
  ⟨by decide, by decide⟩

/-- C10: the JSON export is the fixed dictionary whose best-model entry is
the string "XGBoost", whose max-F1 entry is the number 89.4 (the exact
rational 894/10), and whose important-features entry is the ordered list
["thalach", "oldpeak", "cp"]; being a closed literal, it depends neither
on the loaded dataset nor on any scorer input. -/
theorem C10_json_fixed_dictionary :
    json_data.meilleur_modele = "XGBoost"
      ∧ json_data.f1_score_max = 894/10
      ∧ json_data.features_importantes = ["thalach", "oldpeak", "cp"] :=
  ⟨rfl, rfl, rfl⟩
